import Mathlib

/-
Verification of the loan policy engine
(`backend/app/services/policy_engine.py`).

Modelling conventions:
- Python floats are modelled as exact rationals (ℚ); the engine's arithmetic
  (annuity formula, ratios, clamps) is treated as real-valued arithmetic.
- Every field the engine reads via `dict.get(key, default)` is modelled as a
  total field of the corresponding structure; a missing key behaves exactly
  like the default value, so the structures carry the post-default values.
  `last_payment_date` and enquiry `date` are `Option String` because the code
  distinguishes a missing/None date (falsy) from a present string.
- Dates: `datetime.strptime(s, "%Y-%m-%d")` and `datetime.now()` are modelled
  by an abstract parameter `parse_date : String → Option Int` (a parsed date
  is its day number; `none` means the parse raises) together with a day
  number `now : Int`.  `timedelta(days = d)` is subtraction of `d`.
- Python exceptions are modelled with `Except String`; the `try/except`
  blocks of `evaluate_application` and `_apply_waterfall_policy` become the
  handlers that turn an `Except.error` into a MANUAL_REVIEW result.
- Reason / condition strings are modelled as an inductive type carrying the
  interpolated values, abstracting the exact f-string rendering.
-/

unseal Rat.mul Rat.inv Rat.add Rat.sub

deriving instance DecidableEq for Except

/-- One entry of `application_data["income_sources"]`: `{amount, type}`. -/
structure IncomeSource where
  amount : ℚ
  type : String
deriving DecidableEq

/-- One entry of `bureau_data["accounts"]`. -/
structure Account where
  status : String
  account_type : String
  emi_amount : ℚ
  last_payment_date : Option String
  payment_history : List String
  credit_limit : ℚ
  current_balance : ℚ
deriving DecidableEq

/-- One entry of `bureau_data["enquiries"]`; only its `date` is read. -/
structure Enquiry where
  date : Option String
deriving DecidableEq

/-- The fields of `application_data` read by the engine, after the
`dict.get` defaults have been applied. -/
structure Application where
  monthly_income : ℚ
  age : Int
  employment_type : String
  employment_years : ℚ
  requested_amount : ℚ
  preferred_tenure : Int
  income_sources : List IncomeSource
deriving DecidableEq

/-- The fields of `bureau_data` read by the engine;
`debt_velocity_12m` is `platform_data["debt_velocity_12m"]`. -/
structure BureauReport where
  credit_score : ℚ
  accounts : List Account
  enquiries : List Enquiry
  debt_velocity_12m : ℚ
deriving DecidableEq

/-- The three decision strings of `PolicyResult.decision`. -/
inductive Decision where
  | APPROVED
  | REJECTED
  | MANUAL_REVIEW
deriving DecidableEq

/-- Rejection / explanation strings, abstracted to their interpolated data. -/
inductive Reason where
  | low_income (income : ℚ) (threshold : ℚ)
  | low_credit_score (score : ℚ) (threshold : ℚ)
  | age_out_of_range (age : Int)
  | employment_unstable (years : ℚ) (required : ℚ) (employment_type : String)
  | recent_default (account_type : String)
  | default_found (account_type : String)
  | too_many_enquiries (count : Nat)
  | high_debt_velocity (velocity : ℚ)
  | foir_exceeded (foir : ℚ) (max_foir : ℚ)
  | waterfall_error (message : String)
deriving DecidableEq

/-- Condition strings attached to an approval, abstracted to their data. -/
inductive Condition where
  | amount_reduced (requested : ℚ) (approved : ℚ)
deriving DecidableEq

/-- The `PolicyResult` dataclass; unset optional fields are `none`. -/
structure PolicyResult where
  decision : Decision
  approved_amount : Option ℚ := none
  interest_rate : Option ℚ := none
  tenure_months : Option Int := none
  conditions : Option (List Condition) := none
  reasons : Option (List Reason) := none
  foir : Option ℚ := none
  risk_scale_factor : Option ℚ := none
deriving DecidableEq

/-- Model of `PolicyEngine.MIN_INCOME_THRESHOLD`. -/
def MIN_INCOME_THRESHOLD : ℚ := 25000

/-- Model of `PolicyEngine.MAX_FOIR` (0.55). -/
def MAX_FOIR : ℚ := 55 / 100

/-- Model of `PolicyEngine.MIN_CREDIT_SCORE`. -/
def MIN_CREDIT_SCORE : ℚ := 650

/-- Model of `PolicyEngine.MAX_LOAN_AMOUNT`. -/
def MAX_LOAN_AMOUNT : ℚ := 2000000

/-- Model of `PolicyEngine.MIN_LOAN_AMOUNT`. -/
def MIN_LOAN_AMOUNT : ℚ := 50000

/-- Model of `PolicyEngine.RISK_SCALE_FACTORS[category]`: a direct dict access, so an
unknown category raises `KeyError` (modelled as `Except.error`). -/
def RISK_SCALE_FACTORS (category : String) : Except String ℚ :=
  if category = "EXCELLENT" then .ok (8/10)
  else if category = "GOOD" then .ok (9/10)
  else if category = "FAIR" then .ok 1
  else if category = "POOR" then .ok (11/10)
  else .error "KeyError"

/-- Model of `PolicyEngine.INCOME_PRIORITY_MULTIPLIERS.get(t, 0.6)`. -/
def INCOME_PRIORITY_MULTIPLIERS (t : String) : ℚ :=
  if t = "salary" then 1
  else if t = "rental" then 8/10
  else if t = "business" then 7/10
  else if t = "pension" then 9/10
  else if t = "other" then 6/10
  else 6/10

/-- Model of `PolicyEngine.EMPLOYMENT_MULTIPLIERS.get(t, 0.9)`. -/
def EMPLOYMENT_MULTIPLIERS (t : String) : ℚ :=
  if t = "government" then 1
  else if t = "private_mnc" then 95/100
  else if t = "private_domestic" then 9/10
  else if t = "self_employed" then 8/10
  else if t = "business" then 75/100
  else 9/10

/-- Model of `PolicyEngine.BASE_INTEREST_RATES.get(tenure, 12.0)` (percent p.a.). -/
def BASE_INTEREST_RATES (tenure : Int) : ℚ :=
  if tenure = 12 then 115/10
  else if tenure = 24 then 12
  else if tenure = 36 then 125/10
  else if tenure = 48 then 13
  else if tenure = 60 then 135/10
  else 12

/-- Model of `_check_minimum_income`: reason if `monthly_income < 25000`. -/
def check_minimum_income (app : Application) (_bur : BureauReport) : List Reason :=
  if app.monthly_income < MIN_INCOME_THRESHOLD then
    [Reason.low_income app.monthly_income MIN_INCOME_THRESHOLD]
  else []

/-- Model of `_check_credit_score`: reason if `credit_score < 650`. -/
def check_credit_score (_app : Application) (bur : BureauReport) : List Reason :=
  if bur.credit_score < MIN_CREDIT_SCORE then
    [Reason.low_credit_score bur.credit_score MIN_CREDIT_SCORE]
  else []

/-- Model of `_check_age_eligibility`: reason if age outside 21..65. -/
def check_age_eligibility (app : Application) (_bur : BureauReport) : List Reason :=
  if app.age < 21 ∨ app.age > 65 then [Reason.age_out_of_range app.age] else []

/-- The `min_employment.get(employment_type, 2)` table of
`_check_employment_stability`. -/
def min_employment (employment_type : String) : ℚ :=
  if employment_type = "government" then 1
  else if employment_type = "private_mnc" then 2
  else if employment_type = "private_domestic" then 2
  else if employment_type = "self_employed" then 3
  else if employment_type = "business" then 3
  else 2

/-- Model of `_check_employment_stability`. -/
def check_employment_stability (app : Application) (_bur : BureauReport) : List Reason :=
  if app.employment_years < min_employment app.employment_type then
    [Reason.employment_unstable app.employment_years
      (min_employment app.employment_type) app.employment_type]
  else []

/-- Model of `_is_recent_date(date_str, days)`: `False` when the date is `None` or
does not parse (the bare `except` clause). -/
def is_recent_date (parse_date : String → Option Int) (now : Int)
    (date_str : Option String) (days : Int) : Bool :=
  match date_str with
  | none => false
  | some s =>
    match parse_date s with
    | none => false
    | some d => decide (d > now - days)

/-- The body of the per-account loop of `_check_bureau_defaults`: a
bad-status account is examined only when `last_payment_date` is truthy
(present and non-empty); a parse failure appends the conservative reason. -/
def account_default_reasons (parse_date : String → Option Int) (now : Int)
    (account : Account) : List Reason :=
  if account.status = "default" ∨ account.status = "write_off" ∨
      account.status = "settled" then
    match account.last_payment_date with
    | none => []
    | some s =>
      if s = "" then []
      else
        match parse_date s with
        | some d =>
          if d > now - 730 then [Reason.recent_default account.account_type]
          else []
        | none => [Reason.default_found account.account_type]
  else []

/-- Model of `_check_bureau_defaults`: the default/write-off loop followed by the
enquiry-velocity check (more than 5 enquiries in the last 90 days). -/
def check_bureau_defaults (parse_date : String → Option Int) (now : Int)
    (_app : Application) (bur : BureauReport) : List Reason :=
  let default_reasons :=
    bur.accounts.foldl (fun acc a => acc ++ account_default_reasons parse_date now a) []
  let recent_enquiries :=
    bur.enquiries.filter (fun e => is_recent_date parse_date now e.date 90)
  default_reasons ++
    (if recent_enquiries.length > 5 then
      [Reason.too_many_enquiries recent_enquiries.length]
    else [])

/-- Model of `_check_debt_velocity`: reason if `platform_data["debt_velocity_12m"] > 2.0`. -/
def check_debt_velocity (_app : Application) (bur : BureauReport) : List Reason :=
  if bur.debt_velocity_12m > 2 then
    [Reason.high_debt_velocity bur.debt_velocity_12m]
  else []

/-- Model of `_apply_hard_reject_rules`: every rule in `self.hard_reject_rules` is
evaluated and its reasons appended; no short-circuiting. -/
def apply_hard_reject_rules (parse_date : String → Option Int) (now : Int)
    (app : Application) (bur : BureauReport) : List Reason :=
  check_minimum_income app bur ++
  check_credit_score app bur ++
  check_age_eligibility app bur ++
  check_employment_stability app bur ++
  check_bureau_defaults parse_date now app bur ++
  check_debt_velocity app bur

/-- Model of `_calculate_adjusted_income`: weights income sources (when the list is
non-empty) and applies the employment multiplier. -/
def calculate_adjusted_income (app : Application) : ℚ :=
  let base_income := app.monthly_income
  let employment_multiplier := EMPLOYMENT_MULTIPLIERS app.employment_type
  if app.income_sources ≠ [] then
    (app.income_sources.foldl
      (fun acc s => acc + s.amount * INCOME_PRIORITY_MULTIPLIERS s.type) 0) *
      employment_multiplier
  else base_income * employment_multiplier

/-- Model of `_calculate_foir`: existing EMIs of active loan/credit-card accounts plus
the proposed EMI of the requested loan, divided by adjusted income (1.0 when
adjusted income is not positive).  The annuity division raises
`ZeroDivisionError` when `(1+r)^n - 1 = 0` (e.g. a tenure of 0 months). -/
def calculate_foir (app : Application) (bur : BureauReport) : Except String ℚ :=
  let monthly_income := calculate_adjusted_income app
  let total_emis :=
    bur.accounts.foldl
      (fun acc a =>
        if a.status == "active" && (a.account_type == "loan" || a.account_type == "credit_card")
        then acc + a.emi_amount else acc) 0
  let estimated_rate := BASE_INTEREST_RATES app.preferred_tenure
  let monthly_rate := estimated_rate / 100 / 12
  if (1 + monthly_rate) ^ app.preferred_tenure - 1 = 0 then
    Except.error "ZeroDivisionError: float division by zero"
  else
    let proposed_emi :=
      app.requested_amount * monthly_rate * (1 + monthly_rate) ^ app.preferred_tenure /
        ((1 + monthly_rate) ^ app.preferred_tenure - 1)
    let total_obligations := total_emis + proposed_emi
    Except.ok (if monthly_income > 0 then total_obligations / monthly_income else 1)

/-- Model of `_assess_account_mix`: diversity score from the set of account types. -/
def assess_account_mix (bur : BureauReport) : ℚ :=
  let account_types := (bur.accounts.map (fun a => a.account_type)).dedup
  if "credit_card" ∈ account_types ∧ "loan" ∈ account_types then 1
  else if account_types.length > 1 then 8/10
  else 6/10

/-- The per-account `score` of `_assess_payment_history`: the count of
on-time ("0") entries divided by the length of the payment history. -/
def on_time_fraction (a : Account) : ℚ :=
  (a.payment_history.countP (fun p => p == "0") : ℚ) / (a.payment_history.length : ℚ)

/-- Model of `_assess_payment_history`: each account with a non-empty history adds its
on-time fraction to the accumulator; the accumulator is divided by the number
of ALL accounts; 0.5 when there are no accounts. -/
def assess_payment_history (bur : BureauReport) : ℚ :=
  if bur.accounts = [] then 1/2
  else
    let total_score :=
      bur.accounts.foldl
        (fun acc a =>
          if !a.payment_history.isEmpty then acc + on_time_fraction a
          else acc) 0
    total_score / (bur.accounts.length : ℚ)

/-- Model of `_calculate_credit_utilization`: total balance over total limit of
credit-card accounts; 0.0 with no cards or a non-positive total limit. -/
def calculate_credit_utilization (bur : BureauReport) : ℚ :=
  let credit_cards := bur.accounts.filter (fun a => a.account_type == "credit_card")
  if credit_cards = [] then 0
  else
    let total_limit := credit_cards.foldl (fun acc c => acc + c.credit_limit) 0
    let total_balance := credit_cards.foldl (fun acc c => acc + c.current_balance) 0
    if total_limit > 0 then total_balance / total_limit else 0

/-- The dict returned by `_assess_credit_profile`. -/
structure CreditAssessment where
  category : String
  credit_score : ℚ
  account_mix_score : ℚ
  payment_history_score : ℚ
  credit_utilization : ℚ
deriving DecidableEq

/-- Model of `_assess_credit_profile`: score banding plus the three sub-scores. -/
def assess_credit_profile (_app : Application) (bur : BureauReport) : CreditAssessment :=
  let credit_score := bur.credit_score
  let category :=
    if credit_score ≥ 750 then "EXCELLENT"
    else if credit_score ≥ 700 then "GOOD"
    else if credit_score ≥ 650 then "FAIR"
    else "POOR"
  { category := category
    credit_score := credit_score
    account_mix_score := assess_account_mix bur
    payment_history_score := assess_payment_history bur
    credit_utilization := calculate_credit_utilization bur }

/-- Model of `_determine_risk_scale`: band base factor plus utilization and
employment adjustments, clamped to `[0.7, 1.2]`. -/
def determine_risk_scale (credit_assessment : CreditAssessment)
    (app : Application) : Except String ℚ :=
  match RISK_SCALE_FACTORS credit_assessment.category with
  | .error e => .error e
  | .ok base_factor =>
    let utilization := credit_assessment.credit_utilization
    let util_adjustment : ℚ :=
      if utilization > 8/10 then 1/10
      else if utilization < 3/10 then -(1/20)
      else 0
    let employment_adjustment : ℚ :=
      if app.employment_type = "government" then -(1/20)
      else if app.employment_type = "self_employed" ∨ app.employment_type = "business" then 1/20
      else 0
    .ok (max (7/10) (min (6/5) (base_factor + (util_adjustment + employment_adjustment))))

/-- The `max_amount_by_emi` quantity in `_calculate_loan_terms`: the annuity
formula inverted on the FOIR-headroom EMI at the risk-adjusted rate. -/
def max_amount_by_emi (app : Application) (bur : BureauReport) (risk_scale : ℚ) : ℚ :=
  let adjusted_income := calculate_adjusted_income app
  let max_affordable_emi := adjusted_income * MAX_FOIR
  let existing_emis :=
    bur.accounts.foldl
      (fun acc a => if a.status == "active" then acc + a.emi_amount else acc) 0
  let available_emi := max 0 (max_affordable_emi - existing_emis)
  let adjusted_rate := BASE_INTEREST_RATES app.preferred_tenure * risk_scale
  let monthly_rate := adjusted_rate / 100 / 12
  available_emi * ((1 + monthly_rate) ^ app.preferred_tenure - 1) /
    (monthly_rate * (1 + monthly_rate) ^ app.preferred_tenure)

/-- The dict returned by `_calculate_loan_terms`. -/
structure LoanTerms where
  amount : ℚ
  interest_rate : ℚ
  tenure : Int
  conditions : List Condition
deriving DecidableEq

/-- Model of `_calculate_loan_terms`: clamps `min(requested, max_amount_by_emi, MAX)`
and raises `ValueError` when the result is below `MIN_LOAN_AMOUNT`.  The
annuity inversion itself raises `ZeroDivisionError` when its denominator
`r(1+r)^n` is zero. -/
def calculate_loan_terms (app : Application) (bur : BureauReport)
    (_foir : ℚ) (risk_scale : ℚ) (_credit_assessment : CreditAssessment) :
    Except String LoanTerms :=
  let requested_amount := app.requested_amount
  let adjusted_rate := BASE_INTEREST_RATES app.preferred_tenure * risk_scale
  let monthly_rate := adjusted_rate / 100 / 12
  if monthly_rate * (1 + monthly_rate) ^ app.preferred_tenure = 0 then
    Except.error "ZeroDivisionError: float division by zero"
  else
    let approved₀ :=
      min (min requested_amount (max_amount_by_emi app bur risk_scale)) MAX_LOAN_AMOUNT
    let approved_amount :=
      if approved₀ ≥ MIN_LOAN_AMOUNT then max approved₀ MIN_LOAN_AMOUNT else 0
    if approved_amount < MIN_LOAN_AMOUNT then
      Except.error "ValueError: calculated loan amount is below minimum"
    else
      Except.ok
        { amount := approved_amount
          interest_rate := adjusted_rate
          tenure := app.preferred_tenure
          conditions :=
            if approved_amount < requested_amount then
              [Condition.amount_reduced requested_amount approved_amount]
            else [] }

/-- The body of the `try` block of `_apply_waterfall_policy`, with every
stage that can raise sequenced in `Except`. -/
def waterfall_except (app : Application) (bur : BureauReport) :
    Except String PolicyResult :=
  match calculate_foir app bur with
  | .error e => .error e
  | .ok foir_result =>
    if foir_result > MAX_FOIR then
      .ok { decision := Decision.REJECTED
            foir := some foir_result
            reasons := some [Reason.foir_exceeded foir_result MAX_FOIR] }
    else
      let credit_assessment := assess_credit_profile app bur
      match determine_risk_scale credit_assessment app with
      | .error e => .error e
      | .ok risk_scale =>
        match calculate_loan_terms app bur foir_result risk_scale credit_assessment with
        | .error e => .error e
        | .ok loan_terms =>
          .ok { decision := Decision.APPROVED
                approved_amount := some loan_terms.amount
                interest_rate := some loan_terms.interest_rate
                tenure_months := some loan_terms.tenure
                foir := some foir_result
                risk_scale_factor := some risk_scale
                conditions := some loan_terms.conditions }

/-- Model of `_apply_waterfall_policy`: its `except` clause converts any raised fault
into a MANUAL_REVIEW result (note: without a `foir` value). -/
def apply_waterfall_policy (app : Application) (bur : BureauReport) : PolicyResult :=
  match waterfall_except app bur with
  | .ok r => r
  | .error e =>
    { decision := Decision.MANUAL_REVIEW
      reasons := some [Reason.waterfall_error e] }

/-- Model of `evaluate_application`: hard-reject chain first (non-empty reason list ⇒
REJECTED), otherwise the waterfall policy.  The outer `try/except` of the
source has nothing left to catch here because the hard-reject rules are
total and the waterfall already catches its own faults. -/
def evaluate_application (parse_date : String → Option Int) (now : Int)
    (app : Application) (bur : BureauReport) : PolicyResult :=
  let hard_reject_result := apply_hard_reject_rules parse_date now app bur
  if hard_reject_result ≠ [] then
    { decision := Decision.REJECTED
      reasons := some hard_reject_result }
  else apply_waterfall_policy app bur

/-- FOIR as the spec/claim words it (claim C6): existing obligations summed
over ALL accounts with status active (no account-type restriction), the same
annuity-formula EMI, and FOIR = 1 when adjusted income is not positive. -/
def foir_claimed (app : Application) (bur : BureauReport) : Except String ℚ :=
  let adjusted_income := calculate_adjusted_income app
  let existing_obligations :=
    ((bur.accounts.filter (fun a => a.status == "active")).map (fun a => a.emi_amount)).sum
  let r := BASE_INTEREST_RATES app.preferred_tenure / 100 / 12
  if (1 + r) ^ app.preferred_tenure - 1 = 0 then
    Except.error "ZeroDivisionError: float division by zero"
  else
    let proposed_emi :=
      app.requested_amount * r * (1 + r) ^ app.preferred_tenure /
        ((1 + r) ^ app.preferred_tenure - 1)
    Except.ok
      (if adjusted_income ≤ 0 then 1
       else (existing_obligations + proposed_emi) / adjusted_income)

/-- FOIR as the amended claim words it: existing obligations summed over the
accounts with status active AND account type loan or credit_card. -/
def foir_amended_spec (app : Application) (bur : BureauReport) : Except String ℚ :=
  let adjusted_income := calculate_adjusted_income app
  let existing_obligations :=
    ((bur.accounts.filter
        (fun a => a.status == "active" &&
          (a.account_type == "loan" || a.account_type == "credit_card"))).map
      (fun a => a.emi_amount)).sum
  let r := BASE_INTEREST_RATES app.preferred_tenure / 100 / 12
  if (1 + r) ^ app.preferred_tenure - 1 = 0 then
    Except.error "ZeroDivisionError: float division by zero"
  else
    let proposed_emi :=
      app.requested_amount * r * (1 + r) ^ app.preferred_tenure /
        ((1 + r) ^ app.preferred_tenure - 1)
    Except.ok
      (if adjusted_income ≤ 0 then 1
       else (existing_obligations + proposed_emi) / adjusted_income)

/-- Payment-history score as claim C8 words it: the average taken over
exactly the accounts with a non-empty payment history. -/
def payment_history_claimed (bur : BureauReport) : ℚ :=
  if bur.accounts = [] then 1/2
  else
    let scored := bur.accounts.filter (fun a => !a.payment_history.isEmpty)
    (scored.map on_time_fraction).sum / (scored.length : ℚ)

/-- Payment-history score as the amended claim words it: the sum of the
on-time fractions of the accounts with a non-empty history, divided by the
number of ALL accounts. -/
def payment_history_amended_spec (bur : BureauReport) : ℚ :=
  if bur.accounts = [] then 1/2
  else
    ((bur.accounts.filter (fun a => !a.payment_history.isEmpty)).map
      on_time_fraction).sum / (bur.accounts.length : ℚ)

/-- A date environment in which no string parses (all dates unparsable). -/
def pd_none : String → Option Int := fun _ => none

/-- A concrete "today" for witnesses. -/
def now0 : Int := 0

/-- A clean applicant: passes every hard-reject gate. -/
def app_base : Application :=
  { monthly_income := 100000
    age := 30
    employment_type := "government"
    employment_years := 10
    requested_amount := 500000
    preferred_tenure := 24
    income_sources := [] }

/-- A clean bureau report: no accounts, no enquiries, no debt velocity. -/
def bur_clean : BureauReport :=
  { credit_score := 800, accounts := [], enquiries := [], debt_velocity_12m := 0 }

/-- The clean applicant but with a preferred tenure of 0 months. -/
def app_t0 : Application := { app_base with preferred_tenure := 0 }

/-- The clean applicant but requesting a 0 amount (proposed EMI 0). -/
def app_req0 : Application := { app_base with requested_amount := 0 }

/-- An applicant failing two hard-reject gates (income and age). -/
def app_two_fail : Application := { app_base with monthly_income := 1000, age := 17 }

/-- A template account: active loan, all numeric fields 0, no dates. -/
def account0 : Account :=
  { status := "active"
    account_type := "loan"
    emi_amount := 0
    last_payment_date := none
    payment_history := []
    credit_limit := 0
    current_balance := 0 }

/-- Bureau report with one active loan paying a 60000 EMI. -/
def bur_heavy_emi : BureauReport :=
  { bur_clean with accounts := [{ account0 with emi_amount := 60000 }] }

/-- Bureau report with one active account of type "personal_loan"
(not "loan"/"credit_card") paying an 11000 EMI. -/
def bur_other_type : BureauReport :=
  { bur_clean with
    accounts := [{ account0 with account_type := "personal_loan", emi_amount := 11000 }] }

/-- Bureau report with one fully-on-time account and one account with an
empty payment history. -/
def bur_mixed_history : BureauReport :=
  { bur_clean with
    accounts := [{ account0 with payment_history := ["0"] },
                 account0] }

/-- A defaulted account whose `last_payment_date` is missing (None). -/
def account_default_no_date : Account := { account0 with status := "default" }

/-- Bureau report containing only `account_default_no_date`. -/
def bur_default_no_date : BureauReport :=
  { bur_clean with accounts := [account_default_no_date] }

/-- A defaulted account with a present but unparsable `last_payment_date`. -/
def account_default_bad_date : Account :=
  { account0 with status := "default", last_payment_date := some "not-a-date" }

/-- Bureau report containing only `account_default_bad_date`. -/
def bur_default_bad_date : BureauReport :=
  { bur_clean with accounts := [account_default_bad_date] }


/-- A conditional-accumulation `foldl` (the shape of the engine's Python
`for ... if ...: total += ...` loops) equals the initial value plus the sum
of the mapped filtered list. -/
theorem foldl_filter_sum {α : Type} (p : α → Bool) (f : α → ℚ)
    (l : List α) (init : ℚ) :
    l.foldl (fun acc a => if p a then acc + f a else acc) init
      = init + ((l.filter p).map f).sum := by
  induction l generalizing init with
  | nil => simp
  | cons a t ih =>
    cases hp : p a with
    | false => simp [List.foldl_cons, hp, ih]
    | true => simp [List.foldl_cons, hp, ih, add_assoc]

/-- Membership in a `foldl` that appends per-element lists (the shape of the
bureau-defaults loop). -/
theorem mem_foldl_append {α β : Type} (f : α → List β) (l : List α)
    (init : List β) (r : β)
    (h : r ∈ init ∨ ∃ a ∈ l, r ∈ f a) :
    r ∈ l.foldl (fun acc x => acc ++ f x) init := by
  induction l generalizing init with
  | nil =>
    rcases h with h | ⟨a, ha, _⟩
    · simpa using h
    · cases ha
  | cons b t ih =>
    rcases h with h | ⟨a, ha, hr⟩
    · exact ih (init ++ f b) (Or.inl (List.mem_append_left _ h))
    · rcases List.mem_cons.mp ha with rfl | hat
      · exact ih (init ++ f a) (Or.inl (List.mem_append_right _ hr))
      · exact ih (init ++ f b) (Or.inr ⟨a, hat, hr⟩)

/-- When the hard-reject chain returns reasons, `evaluate_application`
returns exactly the REJECTED result carrying them. -/
theorem evaluate_application_hard_fail
    (pd : String → Option Int) (now : Int) (app : Application) (bur : BureauReport)
    (h : apply_hard_reject_rules pd now app bur ≠ []) :
    evaluate_application pd now app bur =
      { decision := Decision.REJECTED
        reasons := some (apply_hard_reject_rules pd now app bur) } := by
  unfold evaluate_application
  simp [h]

/-- When the hard-reject chain returns no reason, `evaluate_application`
is the waterfall policy. -/
theorem evaluate_application_hard_pass
    (pd : String → Option Int) (now : Int) (app : Application) (bur : BureauReport)
    (h : apply_hard_reject_rules pd now app bur = []) :
    evaluate_application pd now app bur = apply_waterfall_policy app bur := by
  unfold evaluate_application
  simp [h]

/-- Complete case analysis of the waterfall `try` body: it either raises, or
rejects at the FOIR gate, or approves with the solved loan terms. -/
theorem waterfall_except_cases (app : Application) (bur : BureauReport) :
    (∃ e, waterfall_except app bur = Except.error e) ∨
    (∃ f, calculate_foir app bur = Except.ok f ∧ f > MAX_FOIR ∧
      waterfall_except app bur = Except.ok
        { decision := Decision.REJECTED
          foir := some f
          reasons := some [Reason.foir_exceeded f MAX_FOIR] }) ∨
    (∃ f rs lt, calculate_foir app bur = Except.ok f ∧ ¬ f > MAX_FOIR ∧
      determine_risk_scale (assess_credit_profile app bur) app = Except.ok rs ∧
      calculate_loan_terms app bur f rs (assess_credit_profile app bur) = Except.ok lt ∧
      waterfall_except app bur = Except.ok
        { decision := Decision.APPROVED
          approved_amount := some lt.amount
          interest_rate := some lt.interest_rate
          tenure_months := some lt.tenure
          foir := some f
          risk_scale_factor := some rs
          conditions := some lt.conditions }) := by
  cases hf : calculate_foir app bur with
  | error e => exact Or.inl ⟨e, by simp [waterfall_except, hf]⟩
  | ok f =>
    by_cases hgt : f > MAX_FOIR
    · exact Or.inr (Or.inl ⟨f, rfl, hgt, by simp [waterfall_except, hf, hgt]⟩)
    · cases hrs : determine_risk_scale (assess_credit_profile app bur) app with
      | error e => exact Or.inl ⟨e, by simp [waterfall_except, hf, hgt, hrs]⟩
      | ok rs =>
        cases hlt : calculate_loan_terms app bur f rs (assess_credit_profile app bur) with
        | error e => exact Or.inl ⟨e, by simp [waterfall_except, hf, hgt, hrs, hlt]⟩
        | ok lt =>
          exact Or.inr (Or.inr ⟨f, rs, lt, rfl, hgt, rfl, hlt,
            by simp [waterfall_except, hf, hgt, hrs, hlt]⟩)

/-- The waterfall handler on a raised fault. -/
theorem apply_waterfall_policy_error (app : Application) (bur : BureauReport)
    (e : String) (h : waterfall_except app bur = Except.error e) :
    apply_waterfall_policy app bur =
      { decision := Decision.MANUAL_REVIEW
        reasons := some [Reason.waterfall_error e] } := by
  unfold apply_waterfall_policy
  rw [h]

/-- The waterfall handler on a normal result. -/
theorem apply_waterfall_policy_ok (app : Application) (bur : BureauReport)
    (r : PolicyResult) (h : waterfall_except app bur = Except.ok r) :
    apply_waterfall_policy app bur = r := by
  unfold apply_waterfall_policy
  rw [h]

/-- When `_calculate_loan_terms` returns (does not raise), the amount is at
least the policy floor and at most both the requested amount and the cap. -/
theorem calculate_loan_terms_ok_bounds
    (app : Application) (bur : BureauReport) (f rs : ℚ) (ca : CreditAssessment)
    (lt : LoanTerms)
    (h : calculate_loan_terms app bur f rs ca = Except.ok lt) :
    MIN_LOAN_AMOUNT ≤ lt.amount ∧ lt.amount ≤ app.requested_amount ∧
      lt.amount ≤ MAX_LOAN_AMOUNT := by
  simp only [calculate_loan_terms] at h
  by_cases h0 : BASE_INTEREST_RATES app.preferred_tenure * rs / 100 / 12 *
      (1 + BASE_INTEREST_RATES app.preferred_tenure * rs / 100 / 12) ^ app.preferred_tenure = 0
  · rw [if_pos h0] at h
    simp at h
  · rw [if_neg h0] at h
    set q := min (min app.requested_amount (max_amount_by_emi app bur rs)) MAX_LOAN_AMOUNT with hq
    by_cases h1 : q ≥ MIN_LOAN_AMOUNT
    · rw [if_pos h1, max_eq_left h1, if_neg (not_lt.mpr h1)] at h
      obtain rfl := Except.ok.inj h
      refine ⟨h1, le_trans (min_le_left _ _) (min_le_left _ _), min_le_right _ _⟩
    · rw [if_neg h1, if_pos (by norm_num [MIN_LOAN_AMOUNT] : (0:ℚ) < MIN_LOAN_AMOUNT)] at h
      simp at h

/-- When the solved/clamped amount is below the floor, `_calculate_loan_terms`
raises (either the annuity division or the explicit `ValueError`). -/
theorem calculate_loan_terms_low_amount_error
    (app : Application) (bur : BureauReport) (f rs : ℚ) (ca : CreditAssessment)
    (hmin : min (min app.requested_amount (max_amount_by_emi app bur rs)) MAX_LOAN_AMOUNT <
      MIN_LOAN_AMOUNT) :
    ∃ e, calculate_loan_terms app bur f rs ca = Except.error e := by
  by_cases h0 : BASE_INTEREST_RATES app.preferred_tenure * rs / 100 / 12 *
      (1 + BASE_INTEREST_RATES app.preferred_tenure * rs / 100 / 12) ^ app.preferred_tenure = 0
  · refine ⟨"ZeroDivisionError: float division by zero", ?_⟩
    simp only [calculate_loan_terms]
    rw [if_pos h0]
  · refine ⟨"ValueError: calculated loan amount is below minimum", ?_⟩
    have h1 : ¬ (min (min app.requested_amount (max_amount_by_emi app bur rs)) MAX_LOAN_AMOUNT ≥
        MIN_LOAN_AMOUNT) := not_le.mpr hmin
    simp only [calculate_loan_terms]
    rw [if_neg h0, if_neg h1, if_pos (by norm_num [MIN_LOAN_AMOUNT] : (0:ℚ) < MIN_LOAN_AMOUNT)]

/-- Whatever `_determine_risk_scale` returns lies in the clamp interval. -/
theorem determine_risk_scale_ok_bounds (ca : CreditAssessment) (app : Application)
    (rs : ℚ) (h : determine_risk_scale ca app = Except.ok rs) :
    7/10 ≤ rs ∧ rs ≤ 6/5 := by
  unfold determine_risk_scale at h
  cases hrf : RISK_SCALE_FACTORS ca.category with
  | error e => rw [hrf] at h; simp at h
  | ok b =>
    rw [hrf] at h
    simp only [Except.ok.injEq] at h
    obtain rfl := h
    constructor
    · exact le_max_left _ _
    · exact max_le (by norm_num) (min_le_left _ _)

/-- C1: for every Application and BureauReport, `evaluate_application`
returns a PolicyResult whose decision is APPROVED, REJECTED or
MANUAL_REVIEW; no fault propagates — any fault raised inside the waterfall
is converted into a MANUAL_REVIEW result carrying a wrapped description. -/
theorem evaluate_application_total_and_fault_converted
    (pd : String → Option Int) (now : Int) (app : Application) (bur : BureauReport) :
    ((evaluate_application pd now app bur).decision = Decision.APPROVED ∨
     (evaluate_application pd now app bur).decision = Decision.REJECTED ∨
     (evaluate_application pd now app bur).decision = Decision.MANUAL_REVIEW) ∧
    (∀ e, apply_hard_reject_rules pd now app bur = [] →
      waterfall_except app bur = Except.error e →
      evaluate_application pd now app bur =
        { decision := Decision.MANUAL_REVIEW
          reasons := some [Reason.waterfall_error e] }) := by
  constructor
  · cases h : (evaluate_application pd now app bur).decision
    · exact Or.inl rfl
    · exact Or.inr (Or.inl rfl)
    · exact Or.inr (Or.inr rfl)
  · intro e hhr hwe
    rw [evaluate_application_hard_pass pd now app bur hhr]
    exact apply_waterfall_policy_error app bur e hwe

/-- Witness for C1: a tenure of 0 months makes the FOIR annuity divide by
zero; the fault surfaces as MANUAL_REVIEW, not as an exception. -/
theorem evaluate_application_total_and_fault_converted_witness :
    evaluate_application pd_none now0 app_t0 bur_clean =
      { decision := Decision.MANUAL_REVIEW
        reasons := some [Reason.waterfall_error "ZeroDivisionError: float division by zero"] } :=
  (evaluate_application_total_and_fault_converted pd_none now0 app_t0 bur_clean).2
    "ZeroDivisionError: float division by zero" (by decide) (by decide)

/-- C2: whenever the decision is APPROVED, the approved amount lies between
`MIN_LOAN_AMOUNT` and `min(requested_amount, MAX_LOAN_AMOUNT)`. -/
theorem approved_amount_within_policy_bounds
    (pd : String → Option Int) (now : Int) (app : Application) (bur : BureauReport)
    (h : (evaluate_application pd now app bur).decision = Decision.APPROVED) :
    ∃ amt, (evaluate_application pd now app bur).approved_amount = some amt ∧
      MIN_LOAN_AMOUNT ≤ amt ∧ amt ≤ min app.requested_amount MAX_LOAN_AMOUNT := by
  by_cases hhr : apply_hard_reject_rules pd now app bur = []
  · rw [evaluate_application_hard_pass pd now app bur hhr] at h ⊢
    rcases waterfall_except_cases app bur with ⟨e, hw⟩ | ⟨f, hf, hgt, hw⟩ |
      ⟨f, rs, lt, hf, hgt, hrs, hlt, hw⟩
    · rw [apply_waterfall_policy_error app bur e hw] at h
      simp at h
    · rw [apply_waterfall_policy_ok app bur _ hw] at h
      simp at h
    · rw [apply_waterfall_policy_ok app bur _ hw]
      obtain ⟨hb1, hb2, hb3⟩ := calculate_loan_terms_ok_bounds app bur f rs _ lt hlt
      exact ⟨lt.amount, rfl, hb1, le_min hb2 hb3⟩
  · rw [evaluate_application_hard_fail pd now app bur hhr] at h
    simp at h

/-- Witness for C2: a clean applicant is approved for the full 500000
requested, within the policy bounds. -/
theorem approved_amount_within_policy_bounds_witness :
    (evaluate_application pd_none now0 app_base bur_clean).decision = Decision.APPROVED ∧
    ∃ amt, (evaluate_application pd_none now0 app_base bur_clean).approved_amount = some amt ∧
      MIN_LOAN_AMOUNT ≤ amt ∧ amt ≤ min app_base.requested_amount MAX_LOAN_AMOUNT :=
  ⟨by decide, approved_amount_within_policy_bounds pd_none now0 app_base bur_clean (by decide)⟩

/-- Counterexample to C3 as stated: a tenure of 0 months passes the
hard-reject chain, the FOIR stage itself faults, and the MANUAL_REVIEW
result carries NO foir value. -/
theorem foir_field_not_always_populated :
    apply_hard_reject_rules pd_none now0 app_t0 bur_clean = [] ∧
    (evaluate_application pd_none now0 app_t0 bur_clean).foir = none := by
  decide

/-- C3 (amended): when the hard-reject chain produces no reason, the result
carries a populated foir whenever the decision is not MANUAL_REVIEW, and a
populated foir above `MAX_FOIR` comes with decision REJECTED and a reason
stating the FOIR value and the threshold. -/
theorem foir_populated_unless_manual_review
    (pd : String → Option Int) (now : Int) (app : Application) (bur : BureauReport)
    (hhr : apply_hard_reject_rules pd now app bur = []) :
    ((evaluate_application pd now app bur).decision ≠ Decision.MANUAL_REVIEW →
      ∃ f, (evaluate_application pd now app bur).foir = some f) ∧
    (∀ f, (evaluate_application pd now app bur).foir = some f → f > MAX_FOIR →
      (evaluate_application pd now app bur).decision = Decision.REJECTED ∧
      (evaluate_application pd now app bur).reasons =
        some [Reason.foir_exceeded f MAX_FOIR]) := by
  rw [evaluate_application_hard_pass pd now app bur hhr]
  rcases waterfall_except_cases app bur with ⟨e, hw⟩ | ⟨f, hf, hgt, hw⟩ |
    ⟨f, rs, lt, hf, hgt, hrs, hlt, hw⟩
  · rw [apply_waterfall_policy_error app bur e hw]
    constructor
    · intro hd
      exact absurd rfl hd
    · intro f hf'
      simp at hf'
  · rw [apply_waterfall_policy_ok app bur _ hw]
    constructor
    · intro _
      exact ⟨f, rfl⟩
    · intro f' hf' _
      simp only [Option.some.injEq] at hf'
      obtain rfl := hf'
      exact ⟨rfl, rfl⟩
  · rw [apply_waterfall_policy_ok app bur _ hw]
    constructor
    · intro _
      exact ⟨f, rfl⟩
    · intro f' hf' hgt'
      simp only [Option.some.injEq] at hf'
      obtain rfl := hf'
      exact absurd hgt' hgt

/-- Witness for the amended C3: an applicant whose existing EMIs give
FOIR = 0.6 > 0.55 is rejected with the FOIR reason. -/
theorem foir_populated_unless_manual_review_witness :
    (evaluate_application pd_none now0 app_req0 bur_heavy_emi).decision = Decision.REJECTED ∧
    (evaluate_application pd_none now0 app_req0 bur_heavy_emi).reasons =
      some [Reason.foir_exceeded (3/5) MAX_FOIR] :=
  (foir_populated_unless_manual_review pd_none now0 app_req0 bur_heavy_emi (by decide)).2
    (3/5) (by decide) (by decide)

/-- C4: when the hard-reject chain and FOIR gate pass but the clamped
principal `min(requested, max_amount_by_emi, MAX)` is below the policy
floor, the loan-term stage raises, and the caught fault yields
MANUAL_REVIEW with a non-empty reasons list. -/
theorem low_solved_amount_gives_manual_review
    (pd : String → Option Int) (now : Int) (app : Application) (bur : BureauReport)
    (f rs : ℚ)
    (hhr : apply_hard_reject_rules pd now app bur = [])
    (hf : calculate_foir app bur = Except.ok f)
    (hle : ¬ f > MAX_FOIR)
    (hrs : determine_risk_scale (assess_credit_profile app bur) app = Except.ok rs)
    (hmin : min (min app.requested_amount (max_amount_by_emi app bur rs)) MAX_LOAN_AMOUNT <
      MIN_LOAN_AMOUNT) :
    (evaluate_application pd now app bur).decision = Decision.MANUAL_REVIEW ∧
    ∃ l, (evaluate_application pd now app bur).reasons = some l ∧ l ≠ [] := by
  obtain ⟨e, he⟩ :=
    calculate_loan_terms_low_amount_error app bur f rs (assess_credit_profile app bur) hmin
  have hwe : waterfall_except app bur = Except.error e := by
    simp [waterfall_except, hf, hle, hrs, he]
  rw [evaluate_application_hard_pass pd now app bur hhr,
    apply_waterfall_policy_error app bur e hwe]
  exact ⟨rfl, [Reason.waterfall_error e], rfl, by simp⟩

/-- Witness for C4: requesting a 0 amount passes FOIR trivially yet clamps
to a principal below the floor; the result is MANUAL_REVIEW, not REJECTED. -/
theorem low_solved_amount_gives_manual_review_witness :
    (evaluate_application pd_none now0 app_req0 bur_clean).decision = Decision.MANUAL_REVIEW ∧
    ∃ l, (evaluate_application pd_none now0 app_req0 bur_clean).reasons = some l ∧ l ≠ [] :=
  low_solved_amount_gives_manual_review pd_none now0 app_req0 bur_clean 0 (7/10)
    (by decide) (by decide) (by decide) (by decide) (by decide)

/-- C5: the hard-reject chain is the concatenation of the reasons of every
gate (no short-circuiting), and a non-empty collection yields REJECTED with
exactly those reasons and nothing from any later stage. -/
theorem hard_reject_collects_all_gate_reasons
    (pd : String → Option Int) (now : Int) (app : Application) (bur : BureauReport) :
    apply_hard_reject_rules pd now app bur =
      check_minimum_income app bur ++ check_credit_score app bur ++
      check_age_eligibility app bur ++ check_employment_stability app bur ++
      check_bureau_defaults pd now app bur ++ check_debt_velocity app bur ∧
    (apply_hard_reject_rules pd now app bur ≠ [] →
      evaluate_application pd now app bur =
        { decision := Decision.REJECTED
          reasons := some (apply_hard_reject_rules pd now app bur) }) :=
  ⟨rfl, fun h => evaluate_application_hard_fail pd now app bur h⟩

/-- Witness for C5: an applicant failing both the income and the age gate is
rejected with both reasons collected, and no other field populated. -/
theorem hard_reject_collects_all_gate_reasons_witness :
    apply_hard_reject_rules pd_none now0 app_two_fail bur_clean =
      [Reason.low_income 1000 25000, Reason.age_out_of_range 17] ∧
    evaluate_application pd_none now0 app_two_fail bur_clean =
      { decision := Decision.REJECTED
        reasons := some [Reason.low_income 1000 25000, Reason.age_out_of_range 17] } := by
  have h :=
    (hard_reject_collects_all_gate_reasons pd_none now0 app_two_fail bur_clean).2 (by decide)
  refine ⟨by decide, ?_⟩
  rw [h]
  decide

/-- Counterexample to C6 as stated: an active account whose type is neither
"loan" nor "credit_card" is ignored by the code's FOIR obligations, so the
code's FOIR differs from the claimed formula (which sums over ALL active
accounts). -/
theorem foir_ignores_non_loan_account_types :
    calculate_foir app_req0 bur_other_type ≠ foir_claimed app_req0 bur_other_type := by
  decide

/-- C6 (amended): the FOIR stage equals the claimed formula once existing
obligations are restricted to active accounts of type loan or credit_card
(same annuity EMI, same FOIR = 1 rule for non-positive adjusted income). -/
theorem calculate_foir_eq_amended_spec (app : Application) (bur : BureauReport) :
    calculate_foir app bur = foir_amended_spec app bur := by
  by_cases h0 : (1 + BASE_INTEREST_RATES app.preferred_tenure / 100 / 12) ^
      app.preferred_tenure - 1 = 0
  · simp only [calculate_foir, foir_amended_spec]
    rw [if_pos h0, if_pos h0]
  · have he := foldl_filter_sum
      (fun a : Account =>
        a.status == "active" && (a.account_type == "loan" || a.account_type == "credit_card"))
      (fun a : Account => a.emi_amount) bur.accounts 0
    simp only [calculate_foir, foir_amended_spec]
    rw [if_neg h0, if_neg h0, he, zero_add]
    rcases le_or_lt (calculate_adjusted_income app) 0 with hle | hlt
    · rw [if_neg (not_lt.mpr hle), if_pos hle]
    · rw [if_pos hlt, if_neg (not_le.mpr hlt)]

/-- C7: whenever the result's risk_scale_factor field is populated, its
value lies in the clamp interval [0.7, 1.2]. -/
theorem risk_scale_factor_clamped
    (pd : String → Option Int) (now : Int) (app : Application) (bur : BureauReport)
    (v : ℚ)
    (h : (evaluate_application pd now app bur).risk_scale_factor = some v) :
    7/10 ≤ v ∧ v ≤ 6/5 := by
  by_cases hhr : apply_hard_reject_rules pd now app bur = []
  · rw [evaluate_application_hard_pass pd now app bur hhr] at h
    rcases waterfall_except_cases app bur with ⟨e, hw⟩ | ⟨f, hf, hgt, hw⟩ |
      ⟨f, rs, lt, hf, hgt, hrs, hlt, hw⟩
    · rw [apply_waterfall_policy_error app bur e hw] at h
      simp at h
    · rw [apply_waterfall_policy_ok app bur _ hw] at h
      simp at h
    · rw [apply_waterfall_policy_ok app bur _ hw] at h
      simp only [Option.some.injEq] at h
      obtain rfl := h
      exact determine_risk_scale_ok_bounds _ app rs hrs
  · rw [evaluate_application_hard_fail pd now app bur hhr] at h
    simp at h

/-- Witness for C7: the clean applicant's result carries 0.7, which is
inside [0.7, 1.2]. -/
theorem risk_scale_factor_clamped_witness :
    (evaluate_application pd_none now0 app_base bur_clean).risk_scale_factor = some (7/10) ∧
    (7/10 ≤ (7/10 : ℚ) ∧ (7/10 : ℚ) ≤ 6/5) :=
  ⟨by decide, risk_scale_factor_clamped pd_none now0 app_base bur_clean (7/10) (by decide)⟩

/-- Counterexample to C8 as stated: with one fully-on-time account and one
account with an empty history the code returns 0.5 (divides by ALL
accounts), not the claimed 1.0 (average over scored accounts only). -/
theorem payment_history_average_counts_empty_accounts :
    assess_payment_history bur_mixed_history ≠ payment_history_claimed bur_mixed_history := by
  decide

/-- C8 (amended): the payment-history score is the sum of the on-time
fractions of the accounts with a non-empty history divided by the number of
ALL accounts (empty-history accounts contribute 0 but are counted), and is
0.5 when there are no accounts. -/
theorem assess_payment_history_eq_amended_spec (bur : BureauReport) :
    assess_payment_history bur = payment_history_amended_spec bur := by
  by_cases h : bur.accounts = []
  · simp only [assess_payment_history, payment_history_amended_spec]
    rw [if_pos h, if_pos h]
  · have he := foldl_filter_sum (fun a : Account => !a.payment_history.isEmpty)
      on_time_fraction bur.accounts 0
    simp only [assess_payment_history, payment_history_amended_spec]
    rw [if_neg h, if_neg h, he, zero_add]

/-- Counterexample to C9 as stated: a defaulted account whose
`last_payment_date` is missing contributes NO rejection reason (the code's
truthiness guard skips it before the conservative parse-failure branch). -/
theorem missing_default_date_not_flagged :
    account_default_no_date.status = "default" ∧
    account_default_no_date.last_payment_date = none ∧
    bur_default_no_date.accounts = [account_default_no_date] ∧
    check_bureau_defaults pd_none now0 app_base bur_default_no_date = [] := by
  decide

/-- C9 (amended): a bad-status account with a PRESENT and NON-EMPTY
`last_payment_date` contributes the conservative reason when the date fails
to parse and the recent-default reason when it parses within 730 days;
an account with a missing or empty date is skipped by this gate. -/
theorem bureau_default_reasons_membership
    (pd : String → Option Int) (now : Int) (app : Application) (bur : BureauReport)
    (a : Account) (ha : a ∈ bur.accounts)
    (hstatus : a.status = "default" ∨ a.status = "write_off" ∨ a.status = "settled") :
    (∀ s, a.last_payment_date = some s → s ≠ "" → pd s = none →
      Reason.default_found a.account_type ∈ check_bureau_defaults pd now app bur) ∧
    (∀ s d, a.last_payment_date = some s → s ≠ "" → pd s = some d → d > now - 730 →
      Reason.recent_default a.account_type ∈ check_bureau_defaults pd now app bur) ∧
    ((a.last_payment_date = none ∨ a.last_payment_date = some "") →
      account_default_reasons pd now a = []) := by
  refine ⟨?_, ?_, ?_⟩
  · intro s hs hne hpd
    simp only [check_bureau_defaults]
    apply List.mem_append_left
    apply mem_foldl_append
    refine Or.inr ⟨a, ha, ?_⟩
    simp [account_default_reasons, hstatus, hs, hne, hpd]
  · intro s d hs hne hpd hd
    simp only [check_bureau_defaults]
    apply List.mem_append_left
    apply mem_foldl_append
    refine Or.inr ⟨a, ha, ?_⟩
    simp [account_default_reasons, hstatus, hs, hne, hpd, hd]
  · intro h
    rcases h with h | h <;> simp [account_default_reasons, h]

/-- Witness for the amended C9: a defaulted account with the unparsable date
"not-a-date" yields the conservative default-found reason. -/
theorem bureau_default_reasons_membership_witness :
    Reason.default_found "loan" ∈
      check_bureau_defaults pd_none now0 app_base bur_default_bad_date :=
  (bureau_default_reasons_membership pd_none now0 app_base bur_default_bad_date
    account_default_bad_date (by decide) (by decide)).1 "not-a-date" (by decide) (by decide) rfl

/-- C10: a preferred tenure of 0 months that passes the hard-reject chain
always ends in MANUAL_REVIEW (the annuity denominator `(1+r)^0 - 1` is 0),
never in APPROVED or a business REJECTED. -/
theorem zero_tenure_gives_manual_review
    (pd : String → Option Int) (now : Int) (app : Application) (bur : BureauReport)
    (ht : app.preferred_tenure = 0)
    (hhr : apply_hard_reject_rules pd now app bur = []) :
    (evaluate_application pd now app bur).decision = Decision.MANUAL_REVIEW ∧
    ∃ l, (evaluate_application pd now app bur).reasons = some l ∧ l ≠ [] := by
  have hfe : calculate_foir app bur =
      Except.error "ZeroDivisionError: float division by zero" := by
    simp only [calculate_foir, ht]
    rw [if_pos (by simp : (1 + BASE_INTEREST_RATES 0 / 100 / 12) ^ (0 : Int) - 1 = 0)]
  have hwe : waterfall_except app bur =
      Except.error "ZeroDivisionError: float division by zero" := by
    simp [waterfall_except, hfe]
  rw [evaluate_application_hard_pass pd now app bur hhr,
    apply_waterfall_policy_error app bur _ hwe]
  exact ⟨rfl, [Reason.waterfall_error "ZeroDivisionError: float division by zero"], rfl, by simp⟩

/-- Witness for C10: the clean applicant with tenure 0 gets MANUAL_REVIEW. -/
theorem zero_tenure_gives_manual_review_witness :
    (evaluate_application pd_none now0 app_t0 bur_clean).decision = Decision.MANUAL_REVIEW ∧
    ∃ l, (evaluate_application pd_none now0 app_t0 bur_clean).reasons = some l ∧ l ≠ [] :=
  zero_tenure_gives_manual_review pd_none now0 app_t0 bur_clean (by decide) (by decide)
